import Mathlib

/-!
Verification of the RUTA-G calculation core (src/index.tsx).

Shallow embedding notes:
* JavaScript numbers are modelled exactly: catalog fields (quantities, prices,
  coordinates) are rationals, and the arithmetic of the engine is carried out
  over the reals, so all stated equalities are exact.
* The one JavaScript-number behaviour the source actually exercises that has
  no counterpart in an ordered field is NaN, produced when a site with an
  empty `wasteTypes` list reaches the CO2 lookup (`CO2_FACTORS[undefined]`
  is `undefined`, and `number * undefined` is `NaN`).  We therefore compute
  the CO2 quantities in `JSNum`, the reals extended with an absorbing `nan`
  element; `co2FactorJS none = .nan` also stands for the `undefined` lookup
  result, since the only use of that value is a multiplication, which yields
  `NaN` either way.
* `Number.prototype.toFixed` (used at src/index.tsx:380-384) is modelled by
  its value: rounding to `f` digits with ties away from zero upward, i.e.
  `jsToFixed f x = floor (x * 10^f + 1/2) / 10^f`, which is the number the
  returned string denotes.
* The source closes over the module-level `ENTITIES_DATA`; following the
  injected-catalog reading of the spec (section 6/9) the catalog is an
  explicit first argument here, instantiated with `ENTITIES_DATA` for the
  concrete claims.
-/

namespace RutaG

/-- Waste categories, src/index.tsx:6. -/
inductive WasteCategory where
  | ACEITES | GRASAS | VIDRIO | ORGANICOS | PLASTICO | PAPEL_CARTON
deriving DecidableEq, Inhabited, Repr

/-- Entity roles, src/index.tsx:7. -/
inductive EntityRole where
  | GENERADOR | GESTOR | AUTORIDAD | ADMIN
deriving DecidableEq, Repr

/-- Units of measure, src/index.tsx:17. -/
inductive QtyUnit where
  | kg | L | unidades
deriving DecidableEq, Repr

/-- Site record, src/index.tsx:9-25.  The random cosmetic `traceabilityHash`
(produced by `genHash`, src/index.tsx:32) is display-only and omitted. -/
structure Entity where
  id : String
  name : String
  role : EntityRole
  address : String
  wasteTypes : List WasteCategory
  quantityDescription : String
  availableQuantity : ℚ
  unit : QtyUnit
  pricePerUnit : ℚ
  currency : String
  lastUpdate : String
  lat : ℚ
  lng : ℚ
  verified : Bool
deriving DecidableEq, Repr

/-- CO2 factors (kg CO2e avoided per unit processed), src/index.tsx:36-43. -/
def CO2_FACTORS : WasteCategory → ℚ
  | .ACEITES => 2.8
  | .GRASAS => 1.2
  | WasteCategory.VIDRIO => 0.3
  | .ORGANICOS => 0.5
  | .PLASTICO => 1.5
  | .PAPEL_CARTON => 1.0

/-- Truck emission factor (kg CO2 per km), src/index.tsx:47. -/
def TRUCK_EMISSION_PER_KM : ℝ := 0.25

/-- Economic regime tags, src/index.tsx:53-57. -/
inductive EconType where
  | COSTO | GRATIS | INGRESO
deriving DecidableEq, Repr

/-- Result record of `getEconomicModel`, src/index.tsx:53-57. -/
structure EconModel where
  type : EconType
  label : String
  color : String
  sign : String
deriving DecidableEq, Repr

/-- `getEconomicModel`, src/index.tsx:50-59, at JavaScript semantics: the
`switch` is over an arbitrary runtime value, and any value other than the
literals GRASAS / ORGANICOS — in particular the `undefined` obtained from
`e.wasteTypes[0]` on an empty list, modelled as `none` — falls into the
`default:` branch. -/
def getEconomicModelJS : Option WasteCategory → EconModel
  | some .GRASAS =>
      { type := .COSTO, label := "Servicio de Recolección", color := "#F59E0B", sign := "-" }
  | some .ORGANICOS =>
      { type := .GRATIS, label := "Recolección Gratuita", color := "#3B82F6", sign := "" }
  | _ =>
      { type := .INGRESO, label := "Venta de Material", color := "#10B981", sign := "+" }

/-- `getEconomicModel` on a value of the declared enum type. -/
def getEconomicModel (category : WasteCategory) : EconModel :=
  getEconomicModelJS (some category)

/-- Seed catalog entry, src/index.tsx:62-66. -/
def restauranteElBaluarte : Entity :=
  { id := "1", name := "Restaurante El Baluarte", role := .GENERADOR,
    address := "Centro Histórico, Calle 32", wasteTypes := [.ACEITES],
    quantityDescription := "50L Aceite Usado", availableQuantity := 50, unit := .L,
    pricePerUnit := 1500, currency := "COP", lastUpdate := "2h",
    lat := 10.4230, lng := -75.5490, verified := true }

/-- Seed catalog entry, src/index.tsx:67-71. -/
def hotelCaribePlaza : Entity :=
  { id := "2", name := "Hotel Caribe Plaza", role := .GENERADOR,
    address := "Bocagrande, Av. San Martín", wasteTypes := [.PLASTICO, .PAPEL_CARTON],
    quantityDescription := "100kg Reciclables", availableQuantity := 100, unit := .kg,
    pricePerUnit := 800, currency := "COP", lastUpdate := "5h",
    lat := 10.4080, lng := -75.5550, verified := true }

/-- Seed catalog entry, src/index.tsx:72-76. -/
def recuperadoraDelCaribe : Entity :=
  { id := "3", name := "Recuperadora del Caribe SAS", role := .GESTOR,
    address := "Zona Industrial Mamonal", wasteTypes := [.ACEITES, .GRASAS],
    quantityDescription := "Planta de Procesamiento", availableQuantity := 0, unit := .L,
    pricePerUnit := 0, currency := "COP", lastUpdate := "1d",
    lat := 10.3850, lng := -75.5000, verified := true }

/-- Seed catalog entry, src/index.tsx:77-81. -/
def cafeDelMar : Entity :=
  { id := "4", name := "Café del Mar", role := .GENERADOR,
    address := "Baluarte Santo Domingo", wasteTypes := [WasteCategory.VIDRIO],
    quantityDescription := "45 botellas", availableQuantity := 45, unit := .unidades,
    pricePerUnit := 200, currency := "COP", lastUpdate := "30m",
    lat := 10.4245, lng := -75.5520, verified := true }

/-- Seed catalog entry, src/index.tsx:82-86; note the empty `wasteTypes`. -/
def epaCartagena : Entity :=
  { id := "5", name := "EPA Cartagena (Autoridad)", role := .AUTORIDAD,
    address := "Pie de la Popa", wasteTypes := [],
    quantityDescription := "Supervisión", availableQuantity := 0, unit := .kg,
    pricePerUnit := 0, currency := "COP", lastUpdate := "En línea",
    lat := 10.4180, lng := -75.5350, verified := true }

/-- Seed catalog entry, src/index.tsx:87-91. -/
def fritosYMas : Entity :=
  { id := "7", name := "Fritos & Más", role := .GENERADOR,
    address := "Av. Pedro de Heredia", wasteTypes := [.GRASAS],
    quantityDescription := "Trampa de Grasa (20L)", availableQuantity := 20, unit := .L,
    pricePerUnit := 5000, currency := "COP", lastUpdate := "4h",
    lat := 10.4050, lng := -75.5250, verified := false }

/-- Seed catalog entry, src/index.tsx:92-96. -/
def mercadoBazurto : Entity :=
  { id := "8", name := "Mercado Bazurto Co.", role := .GENERADOR,
    address := "Av. del Lago", wasteTypes := [.ORGANICOS],
    quantityDescription := "500kg Orgánicos", availableQuantity := 500, unit := .kg,
    pricePerUnit := 0, currency := "COP", lastUpdate := "10m",
    lat := 10.4130, lng := -75.5300, verified := false }

/-- The seed catalog, src/index.tsx:61-97. -/
def ENTITIES_DATA : List Entity :=
  [restauranteElBaluarte, hotelCaribePlaza, recuperadoraDelCaribe, cafeDelMar,
   epaCartagena, fritosYMas, mercadoBazurto]

/-- `deg2rad`, src/index.tsx:113-115. -/
noncomputable def deg2rad (deg : ℝ) : ℝ :=
  deg * (Real.pi / 180)

open Classical in
/-- `Math.atan2 y x` on finite reals (the only inputs the program produces;
signed zeros and infinities are outside the model). -/
noncomputable def jsAtan2 (y x : ℝ) : ℝ :=
  if 0 < x then Real.arctan (y / x)
  else if x < 0 ∧ 0 ≤ y then Real.arctan (y / x) + Real.pi
  else if x < 0 ∧ y < 0 then Real.arctan (y / x) - Real.pi
  else if x = 0 ∧ 0 < y then Real.pi / 2
  else if x = 0 ∧ y < 0 then -(Real.pi / 2)
  else 0

/-- The haversine intermediate `a`, src/index.tsx:104-107. -/
noncomputable def haversineA (lat1 lon1 lat2 lon2 : ℝ) : ℝ :=
  Real.sin (deg2rad (lat2 - lat1) / 2) * Real.sin (deg2rad (lat2 - lat1) / 2) +
    Real.cos (deg2rad lat1) * Real.cos (deg2rad lat2) *
      Real.sin (deg2rad (lon2 - lon1) / 2) * Real.sin (deg2rad (lon2 - lon1) / 2)

/-- `getDistanceFromLatLonInKm`, src/index.tsx:100-111: Earth radius 6371 km,
`c = 2 * atan2(sqrt a, sqrt (1 - a))`, `d = R * c`. -/
noncomputable def getDistanceFromLatLonInKm (lat1 lon1 lat2 lon2 : ℝ) : ℝ :=
  6371 * (2 * jsAtan2 (Real.sqrt (haversineA lat1 lon1 lat2 lon2))
      (Real.sqrt (1 - haversineA lat1 lon1 lat2 lon2)))

/-- JavaScript numbers as used by this program: a real, or `NaN`. -/
inductive JSNum where
  | num : ℝ → JSNum
  | nan : JSNum

/-- JavaScript addition restricted to this domain: `NaN` is absorbing. -/
noncomputable def JSNum.add : JSNum → JSNum → JSNum
  | .num a, .num b => .num (a + b)
  | _, _ => .nan

/-- JavaScript multiplication restricted to this domain: `NaN` is absorbing
(`number * undefined` is also `NaN`, covered by the `nan` operand). -/
noncomputable def JSNum.mul : JSNum → JSNum → JSNum
  | .num a, .num b => .num (a * b)
  | _, _ => .nan

/-- JavaScript subtraction restricted to this domain: `NaN` is absorbing. -/
noncomputable def JSNum.sub : JSNum → JSNum → JSNum
  | .num a, .num b => .num (a - b)
  | _, _ => .nan

/-- Value denoted by `x.toFixed f` (ECMA-262: the integer `n` with `n / 10^f`
closest to `x`, larger `n` on ties). -/
noncomputable def jsToFixed (f : ℕ) (x : ℝ) : ℝ :=
  (⌊x * 10 ^ f + 1 / 2⌋ : ℤ) / 10 ^ f

/-- `toFixed` lifted to `JSNum`; `NaN.toFixed(f)` is the string "NaN". -/
noncomputable def jsToFixedJS (f : ℕ) : JSNum → JSNum
  | .num x => .num (jsToFixed f x)
  | .nan => .nan

/-- `filteredEntities`, src/index.tsx:334-341, over an explicit catalog;
`none` models the TODOS ("show all") sentinel of `selectedCategory`. -/
def filteredEntities (catalog : List Entity) (selectedCategory : Option WasteCategory) :
    List Entity :=
  catalog.filter fun entity =>
    match selectedCategory with
    | none => true
    | some c => entity.wasteTypes.contains c

/-- `selectedObjs`, src/index.tsx:348: resolve each selected identifier in the
catalog and drop the unmatched ones (`.map(find).filter(Boolean)`). -/
def selectedObjs (catalog : List Entity) (routeEntities : List String) : List Entity :=
  routeEntities.filterMap fun id => catalog.find? fun e => e.id == id

/-- The distance loop, src/index.tsx:350-355: sum of consecutive-pair
haversine distances. -/
noncomputable def pairwiseDist : List Entity → ℝ
  | a :: b :: rest =>
      getDistanceFromLatLonInKm (a.lat : ℝ) (a.lng : ℝ) (b.lat : ℝ) (b.lng : ℝ) +
        pairwiseDist (b :: rest)
  | _ => 0

/-- `totalDist`, src/index.tsx:347-355. -/
noncomputable def totalDistance (catalog : List Entity) (routeEntities : List String) : ℝ :=
  pairwiseDist (selectedObjs catalog routeEntities)

/-- One site's contribution to `goodsCost`, src/index.tsx:364-368: the primary
(first-listed) category picks the economic model; INGRESO adds the product,
COSTO subtracts it, GRATIS leaves the accumulator unchanged. -/
def goodsContribution (e : Entity) : ℚ :=
  match (getEconomicModelJS e.wasteTypes.head?).type with
  | .INGRESO => e.availableQuantity * e.pricePerUnit
  | .COSTO => -(e.availableQuantity * e.pricePerUnit)
  | .GRATIS => 0

/-- `goodsCost` accumulated over the route, src/index.tsx:359, 364-368. -/
def goodsCost (catalog : List Entity) (routeEntities : List String) : ℚ :=
  ((selectedObjs catalog routeEntities).map goodsContribution).sum

/-- `CO2_FACTORS[e.wasteTypes[0]]`, src/index.tsx:371: on an empty list the
index read is `undefined`, whose only use is the multiplication below, so it
is collapsed into `nan` here. -/
noncomputable def co2FactorJS : Option WasteCategory → JSNum
  | some c => .num ((CO2_FACTORS c : ℚ) : ℝ)
  | none => .nan

/-- One site's term of the `avoidedCO2` accumulation, src/index.tsx:371. -/
noncomputable def co2Contribution (e : Entity) : JSNum :=
  JSNum.mul (.num ((e.availableQuantity : ℚ) : ℝ)) (co2FactorJS e.wasteTypes.head?)

/-- `avoidedCO2` accumulated over the route, src/index.tsx:362, 370-372. -/
noncomputable def grossAvoidedCO2 (catalog : List Entity) (routeEntities : List String) :
    JSNum :=
  ((selectedObjs catalog routeEntities).map co2Contribution).foldl JSNum.add (.num 0)

/-- `baseLogisticsCost * (1 - discount)`, src/index.tsx:358, 377, 381:
2500 per km, 10 percent off when strictly more than 2 identifiers are
selected (the source tests `routeEntities.length > 2`). -/
noncomputable def logisticsCost (catalog : List Entity) (routeEntities : List String) : ℝ :=
  totalDistance catalog routeEntities * 2500 *
    (1 - if 2 < routeEntities.length then (0.10 : ℝ) else 0)

/-- `logisticsEmissions`, src/index.tsx:375. -/
noncomputable def logisticsEmissions (catalog : List Entity) (routeEntities : List String) :
    ℝ :=
  totalDistance catalog routeEntities * TRUCK_EMISSION_PER_KM

/-- The unrounded net ESG value `avoidedCO2 - logisticsEmissions`,
src/index.tsx:384. -/
noncomputable def netESGvalue (catalog : List Entity) (routeEntities : List String) : JSNum :=
  JSNum.sub (grossAvoidedCO2 catalog routeEntities)
    (.num (logisticsEmissions catalog routeEntities))

/-- Result record of `routeMetrics`, src/index.tsx:345, 379-385.  In the
source the degenerate branch returns plain numbers (plus a `savings: 0`
field no consumer reads, omitted here) while the main branch returns the
`toFixed` strings for distance, cost and the CO2 figures; both are modelled
by the values those outputs denote. -/
structure RouteMetrics where
  distance : ℝ
  cost : ℝ
  goodsBalance : ℚ
  totalCO2 : JSNum
  netESG : JSNum

/-- `routeMetrics`, src/index.tsx:344-386. -/
noncomputable def routeMetrics (catalog : List Entity) (routeEntities : List String) :
    RouteMetrics :=
  if routeEntities.length < 2 then
    { distance := 0, cost := 0, goodsBalance := 0, totalCO2 := .num 0, netESG := .num 0 }
  else
    { distance := jsToFixed 2 (totalDistance catalog routeEntities),
      cost := jsToFixed 0 (logisticsCost catalog routeEntities),
      goodsBalance := goodsCost catalog routeEntities,
      totalCO2 := jsToFixedJS 1 (grossAvoidedCO2 catalog routeEntities),
      netESG := jsToFixedJS 1 (netESGvalue catalog routeEntities) }

/-- Modelled from the spec (section 7, `InvalidSiteReference`): the same
selection "with the unknown identifier removed", i.e. only the identifiers
that resolve in the catalog.  Used to compare the engine against the spec's
expected treatment of unknown identifiers. -/
def knownIds (catalog : List Entity) (routeEntities : List String) : List String :=
  routeEntities.filter fun id => (catalog.find? fun e => e.id == id).isSome

/-- Synthetic site (spec section 9: tests may supply synthetic catalogs):
0.01 L of ACEITES at a fixed location, used to make the engine's internal
rounding observable (0.01 x 2.8 = 0.028 does not survive one-decimal
rounding). -/
def probeSiteA : Entity :=
  { id := "a", name := "Probe A", role := .GENERADOR, address := "",
    wasteTypes := [.ACEITES], quantityDescription := "", availableQuantity := 1 / 100,
    unit := .L, pricePerUnit := 0, currency := "COP", lastUpdate := "",
    lat := 10, lng := -75, verified := true }

/-- Second synthetic site at the same coordinates as `probeSiteA`. -/
def probeSiteB : Entity :=
  { id := "b", name := "Probe B", role := .GENERADOR, address := "",
    wasteTypes := [.ACEITES], quantityDescription := "", availableQuantity := 1 / 100,
    unit := .L, pricePerUnit := 0, currency := "COP", lastUpdate := "",
    lat := 10, lng := -75, verified := true }

/-- Synthetic catalog whose two sites coincide geographically, so every
metric of the route ["a", "b"] is a closed rational. -/
def roundingProbeCatalog : List Entity :=
  [probeSiteA, probeSiteB]

/-- Synthetic site at latitude 0, longitude 0 with nothing to collect. -/
def probeOrigin : Entity :=
  { id := "o", name := "Probe origin", role := .GENERADOR, address := "",
    wasteTypes := [WasteCategory.VIDRIO], quantityDescription := "", availableQuantity := 0,
    unit := .kg, pricePerUnit := 0, currency := "COP", lastUpdate := "",
    lat := 0, lng := 0, verified := true }

/-- Synthetic site at latitude 180, longitude 0: out of coordinate range,
which the spec (section 4.1) says is accepted unvalidated; the haversine
value to `probeOrigin` is exactly 6371 * pi km. -/
def probeAntipode : Entity :=
  { id := "p", name := "Probe antipode", role := .GENERADOR, address := "",
    wasteTypes := [WasteCategory.VIDRIO], quantityDescription := "", availableQuantity := 0,
    unit := .kg, pricePerUnit := 0, currency := "COP", lastUpdate := "",
    lat := 180, lng := 0, verified := true }

/-- Synthetic catalog realizing a long route that collects nothing, so the
transport emissions exceed the avoided emissions. -/
def emptyHaulProbeCatalog : List Entity :=
  [probeOrigin, probeAntipode]

/-! ## Helper lemmas -/

lemma jsAtan2_nonneg {y x : ℝ} (hy : 0 ≤ y) (hx : 0 ≤ x) : 0 ≤ jsAtan2 y x := by
  unfold jsAtan2
  split
  · rename_i h
    have h0 : 0 ≤ y / x := div_nonneg hy h.le
    have := Real.arctan_strictMono.monotone h0
    rwa [Real.arctan_zero] at this
  · split
    · rename_i h
      exact absurd h.1 (not_lt.mpr hx)
    · split
      · rename_i h
        exact absurd h.1 (not_lt.mpr hx)
      · split
        · have := Real.pi_pos
          linarith
        · split
          · rename_i h
            exact absurd h.2 (not_lt.mpr hy)
          · exact le_refl 0

lemma haversineA_self (lat lon : ℝ) : haversineA lat lon lat lon = 0 := by
  unfold haversineA deg2rad
  simp

lemma haversineA_symm (lat1 lon1 lat2 lon2 : ℝ) :
    haversineA lat1 lon1 lat2 lon2 = haversineA lat2 lon2 lat1 lon1 := by
  unfold haversineA
  have h : ∀ u v : ℝ, Real.sin (deg2rad (u - v) / 2) = -Real.sin (deg2rad (v - u) / 2) := by
    intro u v
    rw [show deg2rad (u - v) = -(deg2rad (v - u)) by unfold deg2rad; ring, neg_div,
      Real.sin_neg]
  rw [h lat2 lat1, h lon2 lon1]
  ring

lemma dist_self (lat lon : ℝ) : getDistanceFromLatLonInKm lat lon lat lon = 0 := by
  unfold getDistanceFromLatLonInKm
  rw [haversineA_self]
  norm_num [jsAtan2]

lemma dist_nonneg (lat1 lon1 lat2 lon2 : ℝ) :
    0 ≤ getDistanceFromLatLonInKm lat1 lon1 lat2 lon2 := by
  unfold getDistanceFromLatLonInKm
  have := jsAtan2_nonneg (Real.sqrt_nonneg (haversineA lat1 lon1 lat2 lon2))
    (Real.sqrt_nonneg (1 - haversineA lat1 lon1 lat2 lon2))
  linarith

lemma JSNum.add_num_num (a b : ℝ) : JSNum.add (.num a) (.num b) = .num (a + b) := rfl

lemma JSNum.add_nan_left (x : JSNum) : JSNum.add .nan x = .nan := rfl

lemma JSNum.add_nan_right (x : JSNum) : JSNum.add x .nan = .nan := by cases x <;> rfl

lemma JSNum.mul_num_nan (a : ℝ) : JSNum.mul (.num a) .nan = .nan := rfl

lemma foldl_add_nan_init (l : List JSNum) : l.foldl JSNum.add JSNum.nan = JSNum.nan := by
  induction l with
  | nil => rfl
  | cons x t ih => simpa [JSNum.add_nan_left] using ih

lemma foldl_add_of_nan_mem (l : List JSNum) (i : JSNum) (h : JSNum.nan ∈ l) :
    l.foldl JSNum.add i = JSNum.nan := by
  induction l generalizing i with
  | nil => cases h
  | cons x t ih =>
    rcases List.mem_cons.mp h with h1 | h2
    · subst h1
      rw [List.foldl_cons, JSNum.add_nan_right, foldl_add_nan_init]
    · exact ih _ h2

lemma co2Contribution_of_empty {e : Entity} (h : e.wasteTypes = []) :
    co2Contribution e = JSNum.nan := by
  simp [co2Contribution, h, co2FactorJS, JSNum.mul_num_nan]

lemma co2Contribution_of_nonempty {e : Entity} (h : e.wasteTypes ≠ []) :
    co2Contribution e = JSNum.num
      ((e.availableQuantity : ℝ) * ((CO2_FACTORS e.wasteTypes.headI : ℚ) : ℝ)) := by
  cases hcat : e.wasteTypes with
  | nil => exact absurd hcat h
  | cons c cs => simp [co2Contribution, co2FactorJS, hcat, JSNum.mul, List.headI]

lemma filterMap_eq_filterMap_filter {α β : Type} (f : α → Option β) (l : List α) :
    l.filterMap f = (l.filter fun a => (f a).isSome).filterMap f := by
  induction l with
  | nil => rfl
  | cons a t ih =>
    cases h : f a with
    | none => simp [List.filterMap_cons, List.filter_cons, h, ← ih]
    | some b => simp [List.filterMap_cons, List.filter_cons, h, ← ih]

lemma dist_origin_antipode : getDistanceFromLatLonInKm 0 0 180 0 = 6371 * Real.pi := by
  have h180 : (180 : ℝ) * (Real.pi / 180) = Real.pi := by field_simp
  have ha : haversineA 0 0 180 0 = 1 := by
    unfold haversineA deg2rad
    rw [show ((180 : ℝ) - 0) = 180 by ring, show ((0 : ℝ) - 0) = 0 by ring, h180]
    simp [Real.sin_pi_div_two, Real.cos_pi]
  unfold getDistanceFromLatLonInKm
  rw [ha]
  norm_num [jsAtan2]
  ring

lemma foldl_add_map_num {α : Type} (l : List α) (f : α → ℝ) (a : ℝ) :
    (l.map fun e => JSNum.num (f e)).foldl JSNum.add (JSNum.num a) =
      JSNum.num (a + (l.map f).sum) := by
  induction l generalizing a with
  | nil => simp
  | cons x t ih => simp [JSNum.add, ih, add_assoc]

lemma totalDistance_emptyHaulProbe :
    totalDistance emptyHaulProbeCatalog ["o", "p"] = 6371 * Real.pi := by
  have : totalDistance emptyHaulProbeCatalog ["o", "p"] =
      getDistanceFromLatLonInKm 0 0 180 0 + 0 := by
    simp [totalDistance, selectedObjs, emptyHaulProbeCatalog, probeOrigin, probeAntipode,
      pairwiseDist, List.find?]
  rw [this, dist_origin_antipode, add_zero]

/-! ## Claim theorems -/

/-- C8: `getDistanceFromLatLonInKm` returns exactly 0 on identical points
(the real-valued model has no NaN, and the value is exactly the real number
0), is symmetric in its two endpoints, and is always non-negative. -/
theorem claim8_distance_properties :
    (∀ lat lon : ℝ, getDistanceFromLatLonInKm lat lon lat lon = 0) ∧
    (∀ lat1 lon1 lat2 lon2 : ℝ,
      getDistanceFromLatLonInKm lat1 lon1 lat2 lon2 =
        getDistanceFromLatLonInKm lat2 lon2 lat1 lon1) ∧
    (∀ lat1 lon1 lat2 lon2 : ℝ, 0 ≤ getDistanceFromLatLonInKm lat1 lon1 lat2 lon2) :=
  ⟨dist_self,
   fun lat1 lon1 lat2 lon2 => by
     unfold getDistanceFromLatLonInKm
     rw [haversineA_symm],
   dist_nonneg⟩

/-- C1: the material balance adds availableQuantity x pricePerUnit for a
site whose primary (first-listed) waste category resolves to the INGRESO
(REVENUE) regime, subtracts it for COSTO (COST), adds zero for GRATIS
(FREE); GRASAS resolves to COSTO and VIDRIO to INGRESO, and the route
["7", "4"] (Fritos & Mas, Cafe del Mar) yields balance 9000 - 100000 =
-91000. -/
theorem claim1_material_balance :
    (∀ e : Entity,
      ((getEconomicModelJS e.wasteTypes.head?).type = .INGRESO →
        goodsContribution e = e.availableQuantity * e.pricePerUnit) ∧
      ((getEconomicModelJS e.wasteTypes.head?).type = .COSTO →
        goodsContribution e = -(e.availableQuantity * e.pricePerUnit)) ∧
      ((getEconomicModelJS e.wasteTypes.head?).type = .GRATIS →
        goodsContribution e = 0)) ∧
    (∀ (catalog : List Entity) (ids : List String), 2 ≤ ids.length →
      (routeMetrics catalog ids).goodsBalance =
        ((selectedObjs catalog ids).map goodsContribution).sum) ∧
    (getEconomicModel .GRASAS).type = .COSTO ∧
    (getEconomicModel WasteCategory.VIDRIO).type = .INGRESO ∧
    (routeMetrics ENTITIES_DATA ["7", "4"]).goodsBalance = 9000 - 100000 := by
  refine ⟨?_, ?_, rfl, rfl, ?_⟩
  · intro e
    refine ⟨?_, ?_, ?_⟩ <;> intro h <;> unfold goodsContribution <;> rw [h]
  · intro catalog ids h
    unfold routeMetrics
    rw [if_neg (by omega)]
    rfl
  · simp [routeMetrics, goodsCost, selectedObjs, ENTITIES_DATA, restauranteElBaluarte,
      hotelCaribePlaza, recuperadoraDelCaribe, cafeDelMar, epaCartagena, fritosYMas,
      mercadoBazurto, goodsContribution, getEconomicModelJS, List.find?]
    norm_num

theorem claim1_material_balance_witness :
    goodsContribution cafeDelMar = cafeDelMar.availableQuantity * cafeDelMar.pricePerUnit ∧
    goodsContribution fritosYMas = -(fritosYMas.availableQuantity * fritosYMas.pricePerUnit) ∧
    goodsContribution mercadoBazurto = 0 ∧
    (routeMetrics ENTITIES_DATA ["7", "4"]).goodsBalance =
      ((selectedObjs ENTITIES_DATA ["7", "4"]).map goodsContribution).sum :=
  ⟨(claim1_material_balance.1 cafeDelMar).1 rfl,
   (claim1_material_balance.1 fritosYMas).2.1 rfl,
   (claim1_material_balance.1 mercadoBazurto).2.2 rfl,
   claim1_material_balance.2.1 ENTITIES_DATA ["7", "4"] (by decide)⟩

/-- C2: the 10 percent discount on the base logistics cost (total distance
x 2500 per km) applies exactly when the route selection has more than 2
entries: with at most 2 the full base cost is charged, with more than 2 the
cost is 0.9 x (2500 x total distance); the returned cost field is that
amount rounded to a whole unit (the engine's toFixed(0)). -/
theorem claim2_logistics_discount :
    (∀ (catalog : List Entity) (ids : List String), ids.length ≤ 2 →
      logisticsCost catalog ids = totalDistance catalog ids * 2500) ∧
    (∀ (catalog : List Entity) (ids : List String), 2 < ids.length →
      logisticsCost catalog ids = 0.9 * (2500 * totalDistance catalog ids)) ∧
    (∀ (catalog : List Entity) (ids : List String), 2 ≤ ids.length →
      (routeMetrics catalog ids).cost = jsToFixed 0 (logisticsCost catalog ids)) := by
  refine ⟨?_, ?_, ?_⟩
  · intro c ids h
    unfold logisticsCost
    rw [if_neg (by omega)]
    ring
  · intro c ids h
    unfold logisticsCost
    rw [if_pos h]
    ring
  · intro c ids h
    unfold routeMetrics
    rw [if_neg (by omega)]

theorem claim2_logistics_discount_witness :
    logisticsCost ENTITIES_DATA ["7", "4"] = totalDistance ENTITIES_DATA ["7", "4"] * 2500 ∧
    logisticsCost ENTITIES_DATA ["1", "7", "4"] =
      0.9 * (2500 * totalDistance ENTITIES_DATA ["1", "7", "4"]) ∧
    (routeMetrics ENTITIES_DATA ["7", "4"]).cost =
      jsToFixed 0 (logisticsCost ENTITIES_DATA ["7", "4"]) :=
  ⟨claim2_logistics_discount.1 _ _ (by decide),
   claim2_logistics_discount.2.1 _ _ (by decide),
   claim2_logistics_discount.2.2 _ _ (by decide)⟩

/-- C4 (amended): the degenerate guard counts supplied identifiers, not
resolved valid sites: whenever fewer than 2 identifiers are supplied
(including the empty and every single-identifier route) the engine returns
the all-zero metrics record, and this is an ordinary defined result, not an
error. -/
theorem claim4_degenerate_guard :
    ∀ (catalog : List Entity) (ids : List String), ids.length < 2 →
      routeMetrics catalog ids =
        { distance := 0, cost := 0, goodsBalance := 0, totalCO2 := .num 0,
          netESG := .num 0 } := by
  intro c ids h
  unfold routeMetrics
  rw [if_pos h]

theorem claim4_degenerate_guard_witness :
    routeMetrics ENTITIES_DATA [] =
      { distance := 0, cost := 0, goodsBalance := 0, totalCO2 := .num 0, netESG := .num 0 } ∧
    routeMetrics ENTITIES_DATA ["1"] =
      { distance := 0, cost := 0, goodsBalance := 0, totalCO2 := .num 0, netESG := .num 0 } :=
  ⟨claim4_degenerate_guard ENTITIES_DATA [] (by decide),
   claim4_degenerate_guard ENTITIES_DATA ["1"] (by decide)⟩

/-- C4 counterexample: the route ["7", "6"] resolves to fewer than 2 valid
sites ("6" is not in the catalog), yet its metrics are not zeroed: the
single resolved site still contributes its -100000 material balance. -/
theorem claim4_counterexample :
    (selectedObjs ENTITIES_DATA ["7", "6"]).length < 2 ∧
    (routeMetrics ENTITIES_DATA ["7", "6"]).goodsBalance ≠ 0 := by
  constructor
  · simp [selectedObjs, ENTITIES_DATA, restauranteElBaluarte, hotelCaribePlaza,
      recuperadoraDelCaribe, cafeDelMar, epaCartagena, fritosYMas, mercadoBazurto,
      List.find?]
  · simp [routeMetrics, goodsCost, selectedObjs, ENTITIES_DATA, restauranteElBaluarte,
      hotelCaribePlaza, recuperadoraDelCaribe, cafeDelMar, epaCartagena, fritosYMas,
      mercadoBazurto, goodsContribution, getEconomicModelJS, List.find?]


/-- C5 (amended): an unknown identifier is skipped deterministically when
resolving site objects (the resolved list equals that of the selection with
unknown identifiers removed, and nothing crashes), but the engine's two
length thresholds still count the raw selection including unknown
identifiers; the metrics coincide with those of the cleaned selection
exactly when both selections fall on the same side of both thresholds. -/
theorem claim5_skip_is_local :
    ∀ (catalog : List Entity) (ids : List String),
      selectedObjs catalog ids = selectedObjs catalog (knownIds catalog ids) ∧
      (((knownIds catalog ids).length < 2 ↔ ids.length < 2) →
        ((2 < (knownIds catalog ids).length) ↔ 2 < ids.length) →
        routeMetrics catalog ids = routeMetrics catalog (knownIds catalog ids)) := by
  intro c ids
  have hobj : selectedObjs c ids = selectedObjs c (knownIds c ids) :=
    filterMap_eq_filterMap_filter _ ids
  refine ⟨hobj, fun h1 h2 => ?_⟩
  have hd : totalDistance c ids = totalDistance c (knownIds c ids) := by
    unfold totalDistance
    rw [hobj]
  have hg : goodsCost c ids = goodsCost c (knownIds c ids) := by
    unfold goodsCost
    rw [hobj]
  have hco : grossAvoidedCO2 c ids = grossAvoidedCO2 c (knownIds c ids) := by
    unfold grossAvoidedCO2
    rw [hobj]
  have hlc : logisticsCost c ids = logisticsCost c (knownIds c ids) := by
    unfold logisticsCost
    rw [hd]
    by_cases hgt : 2 < ids.length
    · rw [if_pos hgt, if_pos (h2.mpr hgt)]
    · rw [if_neg hgt, if_neg (fun hh => hgt (h2.mp hh))]
  have hne : netESGvalue c ids = netESGvalue c (knownIds c ids) := by
    unfold netESGvalue logisticsEmissions
    rw [hco, hd]
  unfold routeMetrics
  by_cases hlt : ids.length < 2
  · rw [if_pos hlt, if_pos (h1.mpr hlt)]
  · rw [if_neg hlt, if_neg (fun hh => hlt (h1.mp hh))]
    rw [hd, hg, hco, hlc, hne]

theorem claim5_skip_is_local_witness :
    routeMetrics ENTITIES_DATA ["1", "4", "6", "7"] =
      routeMetrics ENTITIES_DATA (knownIds ENTITIES_DATA ["1", "4", "6", "7"]) :=
  (claim5_skip_is_local ENTITIES_DATA ["1", "4", "6", "7"]).2 (by decide) (by decide)

/-- C5 counterexample: "6" is not a catalog identifier, yet the metrics of
["4", "6"] are not those of ["4"]: the raw length 2 passes the degenerate
guard, so Cafe del Mar's 9000 balance is reported, while ["4"] is zeroed. -/
theorem claim5_counterexample :
    (ENTITIES_DATA.find? fun e => e.id == "6") = none ∧
    (routeMetrics ENTITIES_DATA ["4", "6"]).goodsBalance ≠
      (routeMetrics ENTITIES_DATA ["4"]).goodsBalance := by
  constructor
  · simp [ENTITIES_DATA, restauranteElBaluarte, hotelCaribePlaza, recuperadoraDelCaribe,
      cafeDelMar, epaCartagena, fritosYMas, mercadoBazurto, List.find?]
  · simp [routeMetrics, goodsCost, selectedObjs, ENTITIES_DATA, restauranteElBaluarte,
      hotelCaribePlaza, recuperadoraDelCaribe, cafeDelMar, epaCartagena, fritosYMas,
      mercadoBazurto, goodsContribution, getEconomicModelJS, List.find?]

/-- C7 counterexample: on a category value outside the enum (the `undefined`
primary of an empty waste list, modelled `none`) the resolver does not
reject: it returns the very record a legitimate REVENUE category gets, and
the CO2 factor lookup silently yields `undefined` (modelled `nan`). -/
theorem claim7_counterexample :
    getEconomicModelJS none = getEconomicModelJS (some WasteCategory.VIDRIO) ∧
    (getEconomicModelJS none).type = .INGRESO ∧
    co2FactorJS none = JSNum.nan :=
  ⟨rfl, rfl, rfl⟩

/-- C7 (amended): given a category value outside the fixed enum, the
Economic Model Resolver silently falls into its `default:` branch and
returns the INGRESO (REVENUE) model, and the CO2 factor table silently
yields `undefined`, so any quantity multiplied by it is NaN; neither
component fails fast. -/
theorem claim7_silent_default :
    (getEconomicModelJS none).type = .INGRESO ∧
    getEconomicModelJS none =
      { type := .INGRESO, label := "Venta de Material", color := "#10B981", sign := "+" } ∧
    co2FactorJS none = JSNum.nan ∧
    (∀ q : ℝ, JSNum.mul (.num q) (co2FactorJS none) = JSNum.nan) :=
  ⟨rfl, rfl, rfl, fun _ => rfl⟩

/-- C9: filtering with the TODOS/ALL sentinel returns the whole catalog in
its original order, and filtering by a specific category returns the
order-preserving subsequence of exactly the sites whose waste-category list
contains that category anywhere (not only as its first element). -/
theorem claim9_filtering :
    (∀ catalog : List Entity, filteredEntities catalog none = catalog) ∧
    (∀ (catalog : List Entity) (c : WasteCategory),
      List.Sublist (filteredEntities catalog (some c)) catalog ∧
      ∀ e : Entity,
        e ∈ filteredEntities catalog (some c) ↔ e ∈ catalog ∧ c ∈ e.wasteTypes) := by
  constructor
  · intro catalog
    simp [filteredEntities]
  · intro catalog c
    constructor
    · unfold filteredEntities
      exact List.filter_sublist catalog
    · intro e
      simp [filteredEntities, List.mem_filter]

/-- C3: for every route whose resolved sites all carry a primary category,
the net ESG value is the number (sum over route sites of availableQuantity
x emission factor of the primary category) minus totalDistance x 0.25 (the
truck emission factor per km); the returned `netESG` field is that value
under the engine's one-decimal rounding; and whenever the gross avoided
CO2 falls below the transport emissions the net value is negative. -/
theorem claim3_net_esg :
    TRUCK_EMISSION_PER_KM = 0.25 ∧
    (∀ (catalog : List Entity) (ids : List String),
      (∀ e ∈ selectedObjs catalog ids, e.wasteTypes ≠ []) →
      netESGvalue catalog ids = JSNum.num
        (((selectedObjs catalog ids).map fun e =>
            (e.availableQuantity : ℝ) * ((CO2_FACTORS e.wasteTypes.headI : ℚ) : ℝ)).sum -
          totalDistance catalog ids * 0.25)) ∧
    (∀ (catalog : List Entity) (ids : List String), 2 ≤ ids.length →
      (routeMetrics catalog ids).netESG = jsToFixedJS 1 (netESGvalue catalog ids)) ∧
    (∀ (catalog : List Entity) (ids : List String) (g : ℝ),
      grossAvoidedCO2 catalog ids = JSNum.num g →
      g < totalDistance catalog ids * 0.25 →
      ∃ x, netESGvalue catalog ids = JSNum.num x ∧ x < 0) := by
  refine ⟨by norm_num [TRUCK_EMISSION_PER_KM], ?_, ?_, ?_⟩
  · intro c ids hw
    have hmap : (selectedObjs c ids).map co2Contribution =
        (selectedObjs c ids).map fun e => JSNum.num
          ((e.availableQuantity : ℝ) * ((CO2_FACTORS e.wasteTypes.headI : ℚ) : ℝ)) :=
      List.map_congr_left fun e he => co2Contribution_of_nonempty (hw e he)
    have hg : grossAvoidedCO2 c ids = JSNum.num
        (((selectedObjs c ids).map fun e =>
          (e.availableQuantity : ℝ) * ((CO2_FACTORS e.wasteTypes.headI : ℚ) : ℝ)).sum) := by
      unfold grossAvoidedCO2
      rw [hmap, foldl_add_map_num, zero_add]
    unfold netESGvalue
    rw [hg]
    rfl
  · intro c ids h
    unfold routeMetrics
    rw [if_neg (by omega)]
  · intro c ids g hg hlt
    refine ⟨g - totalDistance c ids * TRUCK_EMISSION_PER_KM, ?_, ?_⟩
    · unfold netESGvalue
      rw [hg]
      rfl
    · have h25 : TRUCK_EMISSION_PER_KM = 0.25 := by norm_num [TRUCK_EMISSION_PER_KM]
      rw [h25]
      linarith

theorem claim3_net_esg_witness :
    netESGvalue ENTITIES_DATA ["7", "4"] = JSNum.num
      (((selectedObjs ENTITIES_DATA ["7", "4"]).map fun e =>
          (e.availableQuantity : ℝ) * ((CO2_FACTORS e.wasteTypes.headI : ℚ) : ℝ)).sum -
        totalDistance ENTITIES_DATA ["7", "4"] * 0.25) ∧
    (routeMetrics ENTITIES_DATA ["7", "4"]).netESG =
      jsToFixedJS 1 (netESGvalue ENTITIES_DATA ["7", "4"]) ∧
    (∃ x, netESGvalue emptyHaulProbeCatalog ["o", "p"] = JSNum.num x ∧ x < 0) := by
  refine ⟨claim3_net_esg.2.1 ENTITIES_DATA ["7", "4"] (by decide),
    claim3_net_esg.2.2.1 ENTITIES_DATA ["7", "4"] (by decide),
    claim3_net_esg.2.2.2 emptyHaulProbeCatalog ["o", "p"] 0 ?_ ?_⟩
  · simp [grossAvoidedCO2, selectedObjs, emptyHaulProbeCatalog, probeOrigin, probeAntipode,
      co2Contribution, co2FactorJS, JSNum.mul, JSNum.add, List.find?, CO2_FACTORS]
  · rw [totalDistance_emptyHaulProbe]
    positivity

/-- C6 (amended): the engine applies the display rounding itself before
returning: on any non-degenerate route the returned distance / cost /
totalCO2 / netESG fields are the `toFixed`-rounded images (2, 0, 1, 1
decimals respectively) of the canonical unrounded values, and only
`goodsBalance` is exposed unrounded. -/
theorem claim6_engine_rounds_itself :
    ∀ (catalog : List Entity) (ids : List String), 2 ≤ ids.length →
      (routeMetrics catalog ids).distance = jsToFixed 2 (totalDistance catalog ids) ∧
      (routeMetrics catalog ids).cost = jsToFixed 0 (logisticsCost catalog ids) ∧
      (routeMetrics catalog ids).goodsBalance = goodsCost catalog ids ∧
      (routeMetrics catalog ids).totalCO2 = jsToFixedJS 1 (grossAvoidedCO2 catalog ids) ∧
      (routeMetrics catalog ids).netESG = jsToFixedJS 1 (netESGvalue catalog ids) := by
  intro c ids h
  unfold routeMetrics
  rw [if_neg (by omega)]
  exact ⟨rfl, rfl, rfl, rfl, rfl⟩

theorem claim6_engine_rounds_itself_witness :
    (routeMetrics ENTITIES_DATA ["7", "4"]).distance =
      jsToFixed 2 (totalDistance ENTITIES_DATA ["7", "4"]) ∧
    (routeMetrics ENTITIES_DATA ["7", "4"]).cost =
      jsToFixed 0 (logisticsCost ENTITIES_DATA ["7", "4"]) ∧
    (routeMetrics ENTITIES_DATA ["7", "4"]).goodsBalance =
      goodsCost ENTITIES_DATA ["7", "4"] ∧
    (routeMetrics ENTITIES_DATA ["7", "4"]).totalCO2 =
      jsToFixedJS 1 (grossAvoidedCO2 ENTITIES_DATA ["7", "4"]) ∧
    (routeMetrics ENTITIES_DATA ["7", "4"]).netESG =
      jsToFixedJS 1 (netESGvalue ENTITIES_DATA ["7", "4"]) :=
  claim6_engine_rounds_itself ENTITIES_DATA ["7", "4"] (by decide)

/-- C6 counterexample: on the synthetic catalog the canonical gross avoided
CO2 of route ["a", "b"] is 0.056, but the engine's returned `totalCO2`
field is the already-rounded 0.1, not the raw value: rounding is not left
to presentation time. -/
theorem claim6_counterexample :
    grossAvoidedCO2 roundingProbeCatalog ["a", "b"] = JSNum.num 0.056 ∧
    (routeMetrics roundingProbeCatalog ["a", "b"]).totalCO2 = JSNum.num 0.1 ∧
    (routeMetrics roundingProbeCatalog ["a", "b"]).totalCO2 ≠
      grossAvoidedCO2 roundingProbeCatalog ["a", "b"] := by
  have hg : grossAvoidedCO2 roundingProbeCatalog ["a", "b"] = JSNum.num 0.056 := by
    simp [grossAvoidedCO2, selectedObjs, roundingProbeCatalog, probeSiteA, probeSiteB,
      co2Contribution, co2FactorJS, JSNum.add, JSNum.mul, List.find?, CO2_FACTORS]
    norm_num
  have hq : (routeMetrics roundingProbeCatalog ["a", "b"]).totalCO2 = JSNum.num 0.1 := by
    have hrm : (routeMetrics roundingProbeCatalog ["a", "b"]).totalCO2 =
        jsToFixedJS 1 (grossAvoidedCO2 roundingProbeCatalog ["a", "b"]) := by
      unfold routeMetrics
      rw [if_neg (by decide)]
    rw [hrm, hg]
    simp only [jsToFixedJS, jsToFixed]
    norm_num
  refine ⟨hg, hq, ?_⟩
  rw [hq, hg]
  intro hcontra
  have := JSNum.num.inj hcontra
  norm_num at this

/-- C10: a route of at least 2 identifiers that resolves a site with an
empty `wasteTypes` (the Authority entity "5" in the seeded catalog) makes
the CO2 accumulation NaN, so the returned `totalCO2` and `netESG` are NaN
rather than numbers, while such a site takes the economic resolver's
default INGRESO branch and contributes availableQuantity x pricePerUnit
(0 x 0 = 0 for the Authority) to the material balance, which stays a
number (75000 for route ["1", "5"]). -/
theorem claim10_nan_propagation :
    (∀ (catalog : List Entity) (ids : List String),
      (∃ e ∈ selectedObjs catalog ids, e.wasteTypes = []) →
      grossAvoidedCO2 catalog ids = JSNum.nan) ∧
    (∀ (catalog : List Entity) (ids : List String), 2 ≤ ids.length →
      grossAvoidedCO2 catalog ids = JSNum.nan →
      (routeMetrics catalog ids).totalCO2 = JSNum.nan ∧
      (routeMetrics catalog ids).netESG = JSNum.nan) ∧
    (∀ e : Entity, e.wasteTypes = [] →
      (getEconomicModelJS e.wasteTypes.head?).type = .INGRESO ∧
      goodsContribution e = e.availableQuantity * e.pricePerUnit) ∧
    (routeMetrics ENTITIES_DATA ["1", "5"]).totalCO2 = JSNum.nan ∧
    (routeMetrics ENTITIES_DATA ["1", "5"]).netESG = JSNum.nan ∧
    (routeMetrics ENTITIES_DATA ["1", "5"]).goodsBalance = 75000 ∧
    epaCartagena.availableQuantity * epaCartagena.pricePerUnit = 0 := by
  have hgen : ∀ (catalog : List Entity) (ids : List String),
      (∃ e ∈ selectedObjs catalog ids, e.wasteTypes = []) →
      grossAvoidedCO2 catalog ids = JSNum.nan := by
    rintro c ids ⟨e, he, hempty⟩
    unfold grossAvoidedCO2
    exact foldl_add_of_nan_mem _ _
      (List.mem_map.mpr ⟨e, he, co2Contribution_of_empty hempty⟩)
  have hroute : ∀ (catalog : List Entity) (ids : List String), 2 ≤ ids.length →
      grossAvoidedCO2 catalog ids = JSNum.nan →
      (routeMetrics catalog ids).totalCO2 = JSNum.nan ∧
      (routeMetrics catalog ids).netESG = JSNum.nan := by
    intro c ids h hnan
    unfold routeMetrics
    rw [if_neg (by omega)]
    constructor
    · show jsToFixedJS 1 (grossAvoidedCO2 c ids) = JSNum.nan
      rw [hnan]
      rfl
    · show jsToFixedJS 1 (netESGvalue c ids) = JSNum.nan
      unfold netESGvalue
      rw [hnan]
      rfl
  have hnan15 : grossAvoidedCO2 ENTITIES_DATA ["1", "5"] = JSNum.nan := by
    apply hgen
    refine ⟨epaCartagena, ?_, rfl⟩
    simp [selectedObjs, ENTITIES_DATA, restauranteElBaluarte, hotelCaribePlaza,
      recuperadoraDelCaribe, cafeDelMar, epaCartagena, fritosYMas, mercadoBazurto,
      List.find?]
  refine ⟨hgen, hroute, ?_, (hroute ENTITIES_DATA ["1", "5"] (by decide) hnan15).1,
    (hroute ENTITIES_DATA ["1", "5"] (by decide) hnan15).2, ?_, by simp [epaCartagena]⟩
  · intro e h
    constructor
    · rw [h]
      rfl
    · simp [goodsContribution, h, getEconomicModelJS]
  · simp [routeMetrics, goodsCost, selectedObjs, ENTITIES_DATA, restauranteElBaluarte,
      hotelCaribePlaza, recuperadoraDelCaribe, cafeDelMar, epaCartagena, fritosYMas,
      mercadoBazurto, goodsContribution, getEconomicModelJS, List.find?]
    norm_num

theorem claim10_nan_propagation_witness :
    grossAvoidedCO2 ENTITIES_DATA ["1", "5"] = JSNum.nan ∧
    ((routeMetrics ENTITIES_DATA ["1", "5"]).totalCO2 = JSNum.nan ∧
      (routeMetrics ENTITIES_DATA ["1", "5"]).netESG = JSNum.nan) ∧
    ((getEconomicModelJS epaCartagena.wasteTypes.head?).type = .INGRESO ∧
      goodsContribution epaCartagena =
        epaCartagena.availableQuantity * epaCartagena.pricePerUnit) := by
  have h1 : grossAvoidedCO2 ENTITIES_DATA ["1", "5"] = JSNum.nan := by
    apply claim10_nan_propagation.1 ENTITIES_DATA ["1", "5"]
    refine ⟨epaCartagena, ?_, rfl⟩
    simp [selectedObjs, ENTITIES_DATA, restauranteElBaluarte, hotelCaribePlaza,
      recuperadoraDelCaribe, cafeDelMar, epaCartagena, fritosYMas, mercadoBazurto,
      List.find?]
  exact ⟨h1, claim10_nan_propagation.2.1 ENTITIES_DATA ["1", "5"] (by decide) h1,
    claim10_nan_propagation.2.2.1 epaCartagena rfl⟩

end RutaG
